import Mathlib

/-!
Verification development for the dd-trace-py excerpt:
  * `src/ddtrace/contrib/internal/elasticsearch/patch.py` — the dual-mode
    (sync/async) elasticsearch `perform_request` interceptor;
  * `src/ddtrace/ext/ci_visibility/_ci_visibility_base.py` — the validated
    `CISourceFileInfoBase` value object.

Modelling notes for the interceptor
-----------------------------------

`_get_perform_request_coro(transport)` builds a Python *generator*
`_perform_request(func, instance, args, kwargs)`.  Every control path of the
generator contains exactly one `yield func(*args, **kwargs)` expression:
  * line 128 — the disabled-tracing path (no pin, or pin disabled);
  * line 146 — the sampling short-circuit path (inside the `with` block);
  * line 206 — the fully-instrumented path (inside the `with` block and inside
    a `try ... except transport.TransportError` handler).

The synchronous driver (`_get_perform_request`, lines 241-253) runs
`result = next(coro)`: the argument of `yield`, i.e. `func(*args, **kwargs)`,
is evaluated INSIDE the generator, so an exception raised by the underlying
call surfaces at the yield site, inside whatever handlers enclose it; on
success the yielded value is sent back in and the generator runs to `return`.

The asynchronous driver (`_get_perform_request_async`, lines 256-268) runs
`result = await next(coro)`: because `func` is an `async def`, the expression
`func(*args, **kwargs)` only *creates* a coroutine object; the generator
yields it un-awaited and the actual call body executes at the driver's
`await`.  Consequently an exception raised by the underlying call surfaces in
the DRIVER, the generator is never resumed, and the generator's
`except transport.TransportError` clause never runs; the generator is later
finalized (CPython throws `GeneratorExit` at the suspended yield, which no
`except` clause in the function catches), so the `with` block still closes the
span — but no error tagging happens on the span.

The model below makes the span-side effects observable as an event trace.
External collaborators (the tracer/span API, URL parsing and encoding
utilities, the serializer, the tag-length limit, the quantizer) are out of
scope per the specification and enter the model as parameters of `Env` or as
opaque trace events; the event order and the branching structure are a direct
transcription of the source.
-/

namespace DDTrace

/-- Tag-key constant `COMPONENT` (from `ddtrace.internal.constants`). -/
def COMPONENT : String := "component"

/-- Tag-key constant `SPAN_KIND` (from `ddtrace.constants`). -/
def SPAN_KIND : String := "span.kind"

/-- Tag-value constant `SpanKind.CLIENT`. -/
def SPAN_KIND_CLIENT : String := "client"

/-- `config.elasticsearch.integration_name`. -/
def INTEGRATION_NAME : String := "elasticsearch"

/-- Tag-key constant `metadata.METHOD` (`ddtrace.ext.elasticsearch`). -/
def META_METHOD : String := "elasticsearch.method"

/-- Tag-key constant `metadata.URL`. -/
def META_URL : String := "elasticsearch.url"

/-- Tag-key constant `metadata.PARAMS`. -/
def META_PARAMS : String := "elasticsearch.params"

/-- Tag-key constant `metadata.BODY`. -/
def META_BODY : String := "elasticsearch.body"

/-- Tag-key constant `net.TARGET_HOST` (`ddtrace.ext.net`). -/
def NET_TARGET_HOST : String := "out.host"

/-- Tag-key constant `http.QUERY_STRING` (`ddtrace.ext.http`). -/
def HTTP_QUERY_STRING : String := "http.query.string"

/-- The positional arguments of `perform_request`: `method, target = args`
(patch.py line 149). -/
structure Args where
  method : String
  target : String
deriving DecidableEq

/-- The keyword arguments the interceptor reads: `kwargs.get("params")` and
`kwargs.get("body")` (lines 150-151).  The request body is opaque to the
interceptor (only its serialization is used), so it is an abstract token. -/
structure Kwargs where
  params : Option (List (String × String))
  body : Option Nat
deriving DecidableEq

/-- A failure raised by the underlying call.  `isTransportError` models
`isinstance(e, transport.TransportError)`; `status_code` models the optional
`status_code` attribute read by `getattr(e, "status_code", 500)` (line 208);
`errId` distinguishes error objects so "the very same error is re-raised" is
expressible. -/
structure Err where
  isTransportError : Bool
  status_code : Option Nat
  errId : Nat
deriving DecidableEq

/-- A success value of the underlying call, by the shapes the response-tag
derivation (lines 212-234) distinguishes:
  * `plainBody took` — not a tuple; `data.get("took")` yields `took`
    (elasticsearch>=2.4,<8);
  * `badBody` — a shape on which derivation raises before any tag is set
    (e.g. no `.get`, or a tuple that fails to unpack); the exception is
    caught by `except Exception` and only logged;
  * `tupled status dataOk took` — a `(status, body)` pair or an
    elastic_transport named tuple; `status` is extracted first, then `took`
    is read from the body, and `dataOk = false` models a body on which that
    read raises (caught; `status` remains assigned). -/
inductive Val where
  | plainBody (took : Option Int)
  | badBody (vid : Nat)
  | tupled (status : Nat) (dataOk : Bool) (took : Option Int)
deriving DecidableEq

/-- Observable span-side events of one intercepted call, in program order. -/
inductive Event where
  | startSpan
  | setPinTags (tags : List (String × String))
  | setTagStr (key value : String)
  | setTagMeasured
  | setAnalyticsRate
  | setMetricTook (v : Int)
  | setStatusCode (n : Nat)
  | setError
  | quantizeSpan
  | callFunc (args : Args) (kwargs : Kwargs)
  | finishSpan
deriving DecidableEq

/-- The pin (`ddtrace.pin.Pin`) resolved for the instance: enabled flag and
instance tags (line 126-127, 134-135). -/
structure Pin where
  enabled : Bool
  tags : List (String × String)

/-- The environment of one intercepted call: the call's arguments, the
resolved pin, the ambient sampling priority, the external URL utilities
(`parse.urlparse(target).path` / `.query`, `parse.urlencode`), the instance's
connection hosts and the netloc extractor, per-integration configuration, the
serialized body and the span-tag length cap, and the oracle for the underlying
call's outcome. -/
structure Env where
  pin : Option Pin
  samplingPriority : Option Int
  args : Args
  kwargs : Kwargs
  parsedPath : String
  parsedQuery : String
  urlencode : List (String × String) → String
  connections : List String
  extractHost : String → String
  traceQueryString : Bool
  serBody : String
  maxLen : Nat
  funcOutcome : Except Err Val

/-- Python truthiness of the `params` keyword argument (`if params:` line
156): `None` and the empty dict are falsy. -/
def paramsTruthy : Option (List (String × String)) → Bool
  | some (_ :: _) => true
  | _ => false

/-- `encoded_params` (lines 156-159): the URL-encoding of the `params`
argument when it is truthy, otherwise the query string parsed from the
target URL. -/
def encodedParams (env : Env) : String :=
  match env.kwargs.params with
  | some (p :: ps) => env.urlencode (p :: ps)
  | _ => env.parsedQuery

/-- Span-opening events (lines 131-142): open the span, set the pin tags when
non-empty, then component, span.kind and the measured marker. -/
def spanSetupEvents (pin : Pin) : List Event :=
  Event.startSpan ::
    ((if pin.tags = [] then [] else [Event.setPinTags pin.tags]) ++
      [Event.setTagStr COMPONENT INTEGRATION_NAME,
        Event.setTagStr SPAN_KIND SPAN_KIND_CLIENT,
        Event.setTagMeasured])

/-- The sampling short-circuit test (line 145):
`sampling_priority is not None and sampling_priority <= 0`. -/
def shortCircuit (env : Env) : Bool :=
  match env.samplingPriority with
  | some p => p ≤ 0
  | none => false

/-- Host-tag events (lines 164-174): scan the connections, tag the first one
whose extracted hostname is truthy (non-empty), then stop. -/
def hostEvents (env : Env) : List Event :=
  match env.connections.findSome?
      (fun c => if env.extractHost c = "" then none else some (env.extractHost c)) with
  | some h => [Event.setTagStr NET_TARGET_HOST h]
  | none => []

/-- The replacement value recorded when the serialized body exceeds the cap
(line 196): `"<body size %s exceeds limit of %s>" % (len, limit)`. -/
def bodyPlaceholder (l c : Nat) : String :=
  "<body size " ++ toString l ++ " exceeds limit of " ++ toString c ++ ">"

/-- Body-tag events (lines 179-197): only for GET/POST; the serialized body
itself when its length is within `_limits.MAX_SPAN_META_VALUE_LEN`, otherwise
the placeholder naming the size and the limit. -/
def bodyEvents (env : Env) : List Event :=
  if env.args.method = "GET" ∨ env.args.method = "POST" then
    if env.serBody.length ≤ env.maxLen then
      [Event.setTagStr META_BODY env.serBody]
    else
      [Event.setTagStr META_BODY (bodyPlaceholder env.serBody.length env.maxLen)]
  else []

/-- Request-tag derivation events (lines 149-201): method, url path, encoded
params, target host, optional query-string tag, optional body tag, analytics
sample rate.  (`quantize` follows separately, line 203.) -/
def requestTagEvents (env : Env) : List Event :=
  [Event.setTagStr META_METHOD env.args.method,
    Event.setTagStr META_URL env.parsedPath,
    Event.setTagStr META_PARAMS (encodedParams env)] ++
  hostEvents env ++
  (if env.traceQueryString then [Event.setTagStr HTTP_QUERY_STRING (encodedParams env)] else []) ++
  bodyEvents env ++
  [Event.setAnalyticsRate]

/-- Truthiness of `took` (`if took:` line 228). -/
def tookEvents : Option Int → List Event
  | some t => if t = 0 then [] else [Event.setMetricTook t]
  | none => []

/-- Response-tag derivation events (lines 212-234): best-effort extraction of
the `took` metric and the status code; any internal failure is caught and
logged; `if status:` sets the status-code tag only for a truthy status. -/
def responseEvents : Val → List Event
  | Val.plainBody took => tookEvents took
  | Val.badBody _ => []
  | Val.tupled status dataOk took =>
      (if dataOk then tookEvents took else []) ++
        (if status = 0 then [] else [Event.setStatusCode status])

/-- The calling convention of the driver wrapping the shared generator. -/
inductive Mode where
  | sync
  | async
deriving DecidableEq

/-- The event recording the (single) invocation of the underlying call with
the original positional and keyword arguments. -/
def callEvent (env : Env) : Event :=
  Event.callFunc env.args env.kwargs

/-- Events after the fully-instrumented yield (line 206) when the underlying
call failed.
  * sync: the exception surfaces at the yield site inside the generator; a
    transport error is tagged (status code, error flag) and re-raised (lines
    207-210); any other error propagates untagged; either way the `with`
    block closes the span.
  * async: the exception surfaces at the driver's `await`; the generator is
    abandoned and finalized (`GeneratorExit` at the yield, caught by no
    handler), so the `with` block closes the span with no tagging. -/
def errorPathEvents (mode : Mode) (e : Err) : List Event :=
  match mode with
  | Mode.sync =>
      if e.isTransportError then
        [Event.setStatusCode (e.status_code.getD 500), Event.setError, Event.finishSpan]
      else
        [Event.finishSpan]
  | Mode.async => [Event.finishSpan]

/-- The wrapped `perform_request`: the event trace and the outcome delivered
to the caller, for one intercepted call under the given driver.  Branches in
source order: pin check (126-129), span opening (131-142), sampling
short-circuit (144-147), request tagging (149-201), quantize (203), delegate
(206), error handling (207-210), response tagging (212-234), span close (the
`with` block). -/
def runPerformRequest (mode : Mode) (env : Env) : List Event × Except Err Val :=
  match env.pin with
  | none => ([callEvent env], env.funcOutcome)
  | some pin =>
    if pin.enabled = false then ([callEvent env], env.funcOutcome)
    else
      let setup := spanSetupEvents pin
      if shortCircuit env then
        (setup ++ [callEvent env, Event.finishSpan], env.funcOutcome)
      else
        let pre := setup ++ requestTagEvents env ++ [Event.quantizeSpan]
        match env.funcOutcome with
        | Except.ok v =>
            (pre ++ callEvent env :: (responseEvents v ++ [Event.finishSpan]), Except.ok v)
        | Except.error e =>
            (pre ++ callEvent env :: errorPathEvents mode e, Except.error e)

/-- The mutable state that `_patch`/`_unpatch` (lines 94-121) observe on one
transport module: the `_datadog_patch` flag (`getattr` default `False`),
which of the two transport classes the module variant has, and how many
wrapper layers are installed on each class's `perform_request` (`_w` adds
one layer, `_u` removes one; `Nat` subtraction models removal, which under
the flag discipline never happens at zero). -/
structure TransportState where
  datadogPatch : Bool
  hasTransport : Bool
  hasAsyncTransport : Bool
  syncWrapped : Nat
  asyncWrapped : Nat
deriving DecidableEq

/-- `_patch(transport)` (lines 94-104): return when the flag is set; else for
each present class, set the flag and wrap `perform_request`. -/
def patchTransport (t : TransportState) : TransportState :=
  if t.datadogPatch then t
  else
    let t1 := if t.hasTransport then
        { t with datadogPatch := true, syncWrapped := t.syncWrapped + 1 } else t
    if t1.hasAsyncTransport then
      { t1 with datadogPatch := true, asyncWrapped := t1.asyncWrapped + 1 } else t1

/-- `_unpatch(transport)` (lines 112-121): return when the flag is unset;
else for each class name that resolves (absence is skipped via `continue`),
clear the flag and unwrap `perform_request`. -/
def unpatchTransport (t : TransportState) : TransportState :=
  if t.datadogPatch = false then t
  else
    let t1 := if t.hasTransport then
        { t with datadogPatch := false, syncWrapped := t.syncWrapped - 1 } else t
    if t1.hasAsyncTransport then
      { t1 with datadogPatch := false, asyncWrapped := t1.asyncWrapped - 1 } else t1

/-!
Embedding of `CISourceFileInfoBase` (`_ci_visibility_base.py` lines 110-159).
Arguments may be of the wrong Python type, so each argument type has a
constructor for ill-typed inputs; `rep` tokens keep distinct objects
distinct.  A `Path` argument carries whether `is_absolute()` holds;
`.absolute()` (line 132) resolves it against the working directory, which the
model abstracts as flipping that flag while keeping the token.
-/

/-- The `path` argument: a `pathlib.Path` (absolute or relative) or a value
of some other type (rejected by `_check_path`, line 129). -/
inductive PathArg where
  | path (isAbs : Bool) (rep : Nat)
  | notPath (rep : Nat)
deriving DecidableEq

/-- A `start_line`/`end_line` argument: `None`, an `int`, or a value of some
other type (rejected by `_check_line_number`, line 156). -/
inductive LineArg where
  | noneVal
  | intVal (n : Int)
  | notInt (rep : Nat)
deriving DecidableEq

/-- A successfully constructed `CISourceFileInfoBase`. -/
structure CISourceFileInfo where
  pathIsAbs : Bool
  pathRep : Nat
  start_line : Option Int
  end_line : Option Int
deriving DecidableEq

/-- `_check_line_number(attr_name)` (lines 148-159): `None` passes through;
a non-`int` raises `ValueError`; an `int` below 1 raises `ValueError`. -/
def checkLineNumber (attr : String) : LineArg → Except String (Option Int)
  | LineArg.noneVal => Except.ok none
  | LineArg.intVal n =>
      if n < 1 then Except.error (attr ++ " must be a positive integer")
      else Except.ok (some n)
  | LineArg.notInt _ => Except.error (attr ++ " must be an integer")

/-- Construction of `CISourceFileInfoBase` via `__post_init__` (lines
121-146): `_check_path` (non-`Path` raises; a relative path is converted to
absolute), then `_check_line_number` on `start_line` and `end_line`, then the
`start_line <= end_line` check, then the `end_line`-without-`start_line`
check. -/
def mkCISourceFileInfo (path : PathArg) (startLine endLine : LineArg) :
    Except String CISourceFileInfo :=
  match path with
  | PathArg.notPath _ => Except.error "path must be a Path object"
  | PathArg.path _ rep =>
    match checkLineNumber "start_line" startLine with
    | Except.error m => Except.error m
    | Except.ok s =>
      match checkLineNumber "end_line" endLine with
      | Except.error m => Except.error m
      | Except.ok e =>
        match s, e with
        | some sv, some ev =>
            if sv > ev then
              Except.error "start_line must be less than or equal to end_line"
            else
              Except.ok ⟨true, rep, some sv, some ev⟩
        | none, some _ =>
            Except.error "start_line must be set if end_line is set"
        | s2, none => Except.ok ⟨true, rep, s2, none⟩

/-- A line argument that `_check_line_number` accepts: `None` or an `int`
at least 1. -/
def lineOk : LineArg → Bool
  | LineArg.noneVal => true
  | LineArg.intVal n => 1 ≤ n
  | LineArg.notInt _ => false

/-- Whether a line argument provides a value (is not `None`). -/
def lineSet : LineArg → Bool
  | LineArg.noneVal => false
  | _ => true

/-- The input conditions under which construction succeeds, as the claim
states them: the path is a `Path` object (absolute or not), every provided
line number is an integer at least 1, `end_line` set requires `start_line`
set, and when both are set `start_line <= end_line`. -/
def validSourceArgs (p : PathArg) (s e : LineArg) : Bool :=
  (match p with | PathArg.path _ _ => true | PathArg.notPath _ => false) &&
  lineOk s && lineOk e &&
  (!(lineSet e) || lineSet s) &&
  (match s, e with
    | LineArg.intVal a, LineArg.intVal b => a ≤ b
    | _, _ => true)

/-- Whether construction of `CISourceFileInfoBase` completes without raising
`ValueError`. -/
def constructionSucceeds (p : PathArg) (s e : LineArg) : Bool :=
  match mkCISourceFileInfo p s e with
  | Except.ok _ => true
  | Except.error _ => false

/-! Trace observations used by the theorems. -/

/-- Whether an event is the invocation of the underlying call. -/
def isCallEvent : Event → Bool
  | Event.callFunc _ _ => true
  | _ => false

/-- Whether an event opens the span. -/
def isStartEvent : Event → Bool
  | Event.startSpan => true
  | _ => false

/-- Whether an event closes the span. -/
def isFinishEvent : Event → Bool
  | Event.finishSpan => true
  | _ => false

/-- Whether an event applies the quantizer. -/
def isQuantizeEvent : Event → Bool
  | Event.quantizeSpan => true
  | _ => false

/-- Whether an event sets the span's error flag (`span.error = 1`). -/
def isErrorFlagEvent : Event → Bool
  | Event.setError => true
  | _ => false

/-- Whether an event sets the status-code tag. -/
def isStatusCodeEvent : Event → Bool
  | Event.setStatusCode _ => true
  | _ => false

/-- Whether an event sets the method tag (the first request tag derived). -/
def isMethodTagEvent : Event → Bool
  | Event.setTagStr k _ => k = META_METHOD
  | _ => false

/-- The underlying-call invocations recorded in a trace. -/
def callEvents (tr : List Event) : List Event :=
  tr.filter isCallEvent

/-- The values set for a given string-tag key, in order. -/
def tagValues (key : String) (tr : List Event) : List String :=
  tr.filterMap fun e =>
    match e with
    | Event.setTagStr k v => if k = key then some v else none
    | _ => none

/-- How many times the span is opened in a trace. -/
def spanStarts (tr : List Event) : Nat :=
  tr.countP isStartEvent

/-- How many times the span is closed in a trace. -/
def spanFinishes (tr : List Event) : Nat :=
  tr.countP isFinishEvent

/-- Whether some event satisfying `q` occurs strictly after some event
satisfying `p`. -/
def existsAfter (p q : Event → Bool) : List Event → Bool
  | [] => false
  | e :: rest => (p e && rest.any q) || existsAfter p q rest

/-- A span was opened but the request-tag derivation (whose first action is
the method tag) did not run. -/
def tagDerivationSkipped (tr : List Event) : Bool :=
  tr.any isStartEvent && !(tr.any isMethodTagEvent)

/-! Concrete inputs used to instantiate the theorems. -/

/-- A pin with tracing enabled and no instance tags. -/
def enabledPin : Pin :=
  { enabled := true, tags := [] }

/-- A concrete fully-instrumented call whose underlying call raises a
transport error carrying status code 404. -/
def envC2 : Env :=
  { pin := some enabledPin
    samplingPriority := some 1
    args := { method := "GET", target := "/my-index/_search?q=foo" }
    kwargs := { params := none, body := none }
    parsedPath := "/my-index/_search"
    parsedQuery := "q=foo"
    urlencode := fun _ => ""
    connections := ["http://127.0.0.1:9200"]
    extractHost := fun _ => "127.0.0.1"
    traceQueryString := false
    serBody := "null"
    maxLen := 25000
    funcOutcome :=
      Except.error { isTransportError := true, status_code := some 404, errId := 7 } }

/-- A concrete call whose context has sampling priority 0 explicitly
assigned. -/
def envC5 : Env :=
  { envC2 with
    samplingPriority := some 0
    funcOutcome := Except.ok (Val.plainBody (some 5)) }

/-- A concrete fully-instrumented call that succeeds with a status and a
`took` field. -/
def envC9 : Env :=
  { envC2 with
    samplingPriority := none
    funcOutcome := Except.ok (Val.tupled 200 true (some 5)) }

/-- A concrete call with no pin attached to the instance. -/
def envC7 : Env :=
  { envC2 with pin := none }

/-- A concrete call supplying one query parameter in the arguments while the
target URL embeds a different query string. -/
def envC8 : Env :=
  { envC9 with
    kwargs := { params := some [("q", "foo")], body := none }
    parsedQuery := "embedded=1"
    urlencode := fun ps => match ps with
      | [("q", "foo")] => "q=foo"
      | _ => "other" }

/-- A concrete unpatched transport module exposing both transport classes. -/
def tC6 : TransportState :=
  { datadogPatch := false
    hasTransport := true
    hasAsyncTransport := true
    syncWrapped := 0
    asyncWrapped := 0 }

/-! Component facts: each event-list component of `runPerformRequest`
contains no underlying-call event, and its contributions to the observation
functions are as computed below. -/

theorem filter_call_spanSetup (pin : Pin) :
    (spanSetupEvents pin).filter isCallEvent = [] := by
  by_cases h : pin.tags = [] <;> simp [spanSetupEvents, h, isCallEvent]

theorem filter_call_hostEvents (env : Env) :
    (hostEvents env).filter isCallEvent = [] := by
  unfold hostEvents
  split <;> simp [isCallEvent]

theorem filter_call_bodyEvents (env : Env) :
    (bodyEvents env).filter isCallEvent = [] := by
  unfold bodyEvents
  split
  · split <;> simp [isCallEvent]
  · simp

theorem filter_call_requestTags (env : Env) :
    (requestTagEvents env).filter isCallEvent = [] := by
  by_cases h : env.traceQueryString <;>
    simp [requestTagEvents, h, isCallEvent, filter_call_hostEvents, filter_call_bodyEvents]

theorem filter_call_took (o : Option Int) :
    (tookEvents o).filter isCallEvent = [] := by
  unfold tookEvents
  split
  · split <;> simp [isCallEvent]
  · simp

theorem filter_call_response (v : Val) :
    (responseEvents v).filter isCallEvent = [] := by
  cases v with
  | plainBody took => simpa [responseEvents] using filter_call_took took
  | badBody vid => simp [responseEvents]
  | tupled status dataOk took =>
      cases dataOk <;> by_cases h : status = 0 <;>
        simp [responseEvents, h, isCallEvent, filter_call_took]

theorem filter_call_errorPath (mode : Mode) (e : Err) :
    (errorPathEvents mode e).filter isCallEvent = [] := by
  cases mode <;> by_cases h : e.isTransportError <;>
    simp [errorPathEvents, h, isCallEvent]

theorem counts_spanSetup (pin : Pin) :
    (spanSetupEvents pin).countP isStartEvent = 1 ∧
    (spanSetupEvents pin).countP isFinishEvent = 0 ∧
    (spanSetupEvents pin).any isQuantizeEvent = false ∧
    (spanSetupEvents pin).any isMethodTagEvent = false := by
  by_cases h : pin.tags = [] <;>
    simp [spanSetupEvents, h, isStartEvent, isFinishEvent, isQuantizeEvent,
      isMethodTagEvent, COMPONENT, SPAN_KIND, META_METHOD]

theorem counts_hostEvents (env : Env) :
    (hostEvents env).countP isStartEvent = 0 ∧
    (hostEvents env).countP isFinishEvent = 0 ∧
    (hostEvents env).any isQuantizeEvent = false ∧
    (hostEvents env).any isMethodTagEvent = false := by
  unfold hostEvents
  split <;>
    simp [isStartEvent, isFinishEvent, isQuantizeEvent, isMethodTagEvent,
      NET_TARGET_HOST, META_METHOD]

theorem counts_bodyEvents (env : Env) :
    (bodyEvents env).countP isStartEvent = 0 ∧
    (bodyEvents env).countP isFinishEvent = 0 ∧
    (bodyEvents env).any isQuantizeEvent = false ∧
    (bodyEvents env).any isMethodTagEvent = false := by
  unfold bodyEvents
  split
  · split <;>
      simp [isStartEvent, isFinishEvent, isQuantizeEvent, isMethodTagEvent,
        META_BODY, META_METHOD]
  · simp

theorem counts_requestTags (env : Env) :
    (requestTagEvents env).countP isStartEvent = 0 ∧
    (requestTagEvents env).countP isFinishEvent = 0 ∧
    (requestTagEvents env).any isQuantizeEvent = false ∧
    (requestTagEvents env).any isMethodTagEvent = true := by
  by_cases h : env.traceQueryString <;>
    simp [requestTagEvents, h, isStartEvent, isFinishEvent, isQuantizeEvent,
      isMethodTagEvent, counts_hostEvents, counts_bodyEvents, META_METHOD,
      META_URL, META_PARAMS, HTTP_QUERY_STRING,
      (counts_hostEvents env).1, (counts_hostEvents env).2.1,
      (counts_hostEvents env).2.2.1, (counts_hostEvents env).2.2.2,
      (counts_bodyEvents env).1, (counts_bodyEvents env).2.1,
      (counts_bodyEvents env).2.2.1, (counts_bodyEvents env).2.2.2]

theorem counts_took (o : Option Int) :
    (tookEvents o).countP isStartEvent = 0 ∧
    (tookEvents o).countP isFinishEvent = 0 ∧
    (tookEvents o).any isQuantizeEvent = false ∧
    (tookEvents o).any isMethodTagEvent = false := by
  unfold tookEvents
  split
  · split <;> simp [isStartEvent, isFinishEvent, isQuantizeEvent, isMethodTagEvent]
  · simp

theorem counts_response (v : Val) :
    (responseEvents v).countP isStartEvent = 0 ∧
    (responseEvents v).countP isFinishEvent = 0 ∧
    (responseEvents v).any isQuantizeEvent = false ∧
    (responseEvents v).any isMethodTagEvent = false := by
  cases v with
  | plainBody took => simpa [responseEvents] using counts_took took
  | badBody vid => simp [responseEvents]
  | tupled status dataOk took =>
      cases dataOk <;> by_cases h : status = 0 <;>
        simp [responseEvents, h, isStartEvent, isFinishEvent, isQuantizeEvent,
          isMethodTagEvent, (counts_took took).1, (counts_took took).2.1,
          (counts_took took).2.2.1, (counts_took took).2.2.2]

theorem counts_errorPath (mode : Mode) (e : Err) :
    (errorPathEvents mode e).countP isStartEvent = 0 ∧
    (errorPathEvents mode e).countP isFinishEvent = 1 ∧
    (errorPathEvents mode e).any isQuantizeEvent = false ∧
    (errorPathEvents mode e).any isMethodTagEvent = false := by
  cases mode <;> by_cases h : e.isTransportError <;>
    simp [errorPathEvents, h, isStartEvent, isFinishEvent, isQuantizeEvent,
      isMethodTagEvent]

theorem tagValues_took (key : String) (o : Option Int) :
    tagValues key (tookEvents o) = [] := by
  unfold tookEvents
  split
  · split <;> simp [tagValues]
  · simp [tagValues]

theorem tagValues_append (key : String) (l1 l2 : List Event) :
    tagValues key (l1 ++ l2) = tagValues key l1 ++ tagValues key l2 := by
  simp [tagValues]

theorem tagValues_response (key : String) (v : Val) :
    tagValues key (responseEvents v) = [] := by
  cases v with
  | plainBody took => simpa [responseEvents] using tagValues_took key took
  | badBody vid => simp [responseEvents, tagValues]
  | tupled status dataOk took =>
      have hb : tagValues key (if dataOk then tookEvents took else []) = [] := by
        cases dataOk
        · simp [tagValues]
        · simpa using tagValues_took key took
      have hs : tagValues key
          (if status = 0 then [] else [Event.setStatusCode status]) = [] := by
        by_cases h : status = 0 <;> simp [h, tagValues]
      show tagValues key ((if dataOk then tookEvents took else []) ++
        (if status = 0 then [] else [Event.setStatusCode status])) = []
      rw [tagValues_append, hb, hs]
      rfl

theorem tagValues_errorPath (key : String) (mode : Mode) (e : Err) :
    tagValues key (errorPathEvents mode e) = [] := by
  cases mode <;> by_cases h : e.isTransportError <;>
    simp [errorPathEvents, h, tagValues]

theorem tagValues_spanSetup (key : String) (pin : Pin)
    (h1 : COMPONENT ≠ key) (h2 : SPAN_KIND ≠ key) :
    tagValues key (spanSetupEvents pin) = [] := by
  by_cases h : pin.tags = [] <;> simp [spanSetupEvents, tagValues, h, h1, h2]

theorem tagValues_hostEvents (key : String) (env : Env)
    (h1 : NET_TARGET_HOST ≠ key) :
    tagValues key (hostEvents env) = [] := by
  unfold hostEvents
  split <;> simp [tagValues, h1]

theorem tagValues_bodyEvents_ne (key : String) (env : Env)
    (h1 : META_BODY ≠ key) :
    tagValues key (bodyEvents env) = [] := by
  unfold bodyEvents
  split
  · split <;> simp [tagValues, h1]
  · simp [tagValues]

theorem tagValues_bodyEvents (env : Env) :
    tagValues META_BODY (bodyEvents env) =
      if env.args.method = "GET" ∨ env.args.method = "POST" then
        [if env.serBody.length ≤ env.maxLen then env.serBody
          else bodyPlaceholder env.serBody.length env.maxLen]
      else [] := by
  unfold bodyEvents
  split_ifs <;> simp [tagValues]

theorem tagValues_queryStringTag (key : String) (env : Env)
    (h1 : HTTP_QUERY_STRING ≠ key) :
    tagValues key
      (if env.traceQueryString then
        [Event.setTagStr HTTP_QUERY_STRING (encodedParams env)] else []) = [] := by
  by_cases h : env.traceQueryString <;> simp [h, tagValues, h1]

theorem tagValues_requestTags_body (env : Env) :
    tagValues META_BODY (requestTagEvents env) =
      tagValues META_BODY (bodyEvents env) := by
  unfold requestTagEvents
  rw [tagValues_append, tagValues_append, tagValues_append, tagValues_append,
    tagValues_hostEvents META_BODY env (by decide),
    tagValues_queryStringTag META_BODY env (by decide)]
  simp [tagValues, META_METHOD, META_URL, META_PARAMS, META_BODY]

theorem tagValues_requestTags_params (env : Env) :
    tagValues META_PARAMS (requestTagEvents env) = [encodedParams env] := by
  unfold requestTagEvents
  rw [tagValues_append, tagValues_append, tagValues_append, tagValues_append,
    tagValues_hostEvents META_PARAMS env (by decide),
    tagValues_queryStringTag META_PARAMS env (by decide),
    tagValues_bodyEvents_ne META_PARAMS env (by decide)]
  simp [tagValues, META_METHOD, META_URL, META_PARAMS]

theorem tagValues_requestTags_url (env : Env) :
    tagValues META_URL (requestTagEvents env) = [env.parsedPath] := by
  unfold requestTagEvents
  rw [tagValues_append, tagValues_append, tagValues_append, tagValues_append,
    tagValues_hostEvents META_URL env (by decide),
    tagValues_queryStringTag META_URL env (by decide),
    tagValues_bodyEvents_ne META_URL env (by decide)]
  simp [tagValues, META_METHOD, META_URL, META_PARAMS]

theorem shortCircuit_iff (env : Env) :
    shortCircuit env = true ↔ ∃ p, env.samplingPriority = some p ∧ p ≤ 0 := by
  unfold shortCircuit
  cases h : env.samplingPriority with
  | none => simp
  | some p => simp

theorem run_disabled (mode : Mode) (env : Env)
    (h : env.pin = none ∨ ∃ pin, env.pin = some pin ∧ pin.enabled = false) :
    runPerformRequest mode env =
      ([Event.callFunc env.args env.kwargs], env.funcOutcome) := by
  unfold runPerformRequest
  rcases h with h | ⟨pin, hp, hen⟩
  · rw [h]
    rfl
  · rw [hp]
    simp [hen, callEvent]

theorem run_shortCircuit (mode : Mode) (env : Env) (pin : Pin)
    (hpin : env.pin = some pin) (hen : pin.enabled = true)
    (hsc : shortCircuit env = true) :
    runPerformRequest mode env =
      (spanSetupEvents pin ++ [callEvent env, Event.finishSpan],
        env.funcOutcome) := by
  unfold runPerformRequest
  rw [hpin]
  simp [hen, hsc]

theorem any_finish_errorPath (mode : Mode) (e : Err) :
    (errorPathEvents mode e).any isFinishEvent = true := by
  cases mode <;> by_cases h : e.isTransportError <;>
    simp [errorPathEvents, h, isFinishEvent]

theorem run_full (mode : Mode) (env : Env) (pin : Pin)
    (hpin : env.pin = some pin) (hen : pin.enabled = true)
    (hsc : shortCircuit env = false) :
    ∃ suffix : List Event,
      (runPerformRequest mode env).1 =
        spanSetupEvents pin ++ requestTagEvents env ++
          Event.quantizeSpan :: Event.callFunc env.args env.kwargs :: suffix ∧
      suffix.countP isStartEvent = 0 ∧
      suffix.countP isFinishEvent = 1 ∧
      suffix.any isQuantizeEvent = false ∧
      suffix.any isMethodTagEvent = false ∧
      suffix.any isFinishEvent = true ∧
      (∀ key, tagValues key suffix = []) ∧
      suffix.filter isCallEvent = [] ∧
      (runPerformRequest mode env).2 = env.funcOutcome := by
  unfold runPerformRequest
  rw [hpin]
  cases ho : env.funcOutcome with
  | ok v =>
      refine ⟨responseEvents v ++ [Event.finishSpan], ?_, ?_, ?_, ?_, ?_, ?_, ?_, ?_, ?_⟩
      · simp [hen, hsc, callEvent, List.append_assoc]
      · simp [List.countP_append, (counts_response v).1, isStartEvent]
      · simp [List.countP_append, (counts_response v).2.1, isFinishEvent]
      · simp [(counts_response v).2.2.1, isQuantizeEvent]
      · simp [(counts_response v).2.2.2, isMethodTagEvent]
      · simp [isFinishEvent]
      · intro key
        rw [tagValues_append, tagValues_response key v]
        simp [tagValues]
      · simp [List.filter_append, filter_call_response v, isCallEvent]
      · simp [hen, hsc]
  | error e =>
      refine ⟨errorPathEvents mode e, ?_, ?_, ?_, ?_, ?_, ?_, ?_, ?_, ?_⟩
      · simp [hen, hsc, callEvent, List.append_assoc]
      · exact (counts_errorPath mode e).1
      · exact (counts_errorPath mode e).2.1
      · exact (counts_errorPath mode e).2.2.1
      · exact (counts_errorPath mode e).2.2.2
      · exact any_finish_errorPath mode e
      · exact fun key => tagValues_errorPath key mode e
      · exact filter_call_errorPath mode e
      · simp [hen, hsc]

/-- Claim C1: in both the synchronous and the asynchronous adapter the
wrapped `perform_request` delivers exactly the unwrapped call's outcome —
the same value on success and the same failure object on failure — and the
underlying function is invoked exactly once, with the original positional
and keyword arguments. -/
theorem C1_transparency (mode : Mode) (env : Env) :
    (runPerformRequest mode env).2 = env.funcOutcome ∧
    callEvents (runPerformRequest mode env).1 =
      [Event.callFunc env.args env.kwargs] := by
  rcases hp : env.pin with _ | pin
  · rw [run_disabled mode env (Or.inl hp)]
    simp [callEvents, isCallEvent]
  · cases hen : pin.enabled with
    | false =>
        rw [run_disabled mode env (Or.inr ⟨pin, hp, hen⟩)]
        simp [callEvents, isCallEvent]
    | true =>
        cases hsc : shortCircuit env with
        | true =>
            rw [run_shortCircuit mode env pin hp hen hsc]
            simp [callEvents, List.filter_append, filter_call_spanSetup,
              callEvent, isCallEvent]
        | false =>
            obtain ⟨suffix, htr, _, _, _, _, _, _, hcall, hout⟩ :=
              run_full mode env pin hp hen hsc
            refine ⟨hout, ?_⟩
            rw [htr]
            simp [callEvents, List.filter_append, filter_call_spanSetup,
              filter_call_requestTags, isCallEvent, hcall]

/-- Claim C3: whenever the interceptor creates a span, the span is closed
exactly once on every exit path (success, transport-level failure, and
best-effort-tagging failure), in both calling conventions: in every trace
the number of span closes equals the number of span opens, and a span is
opened at most once. -/
theorem C3_span_closed_exactly_once (mode : Mode) (env : Env) :
    spanFinishes (runPerformRequest mode env).1 =
      spanStarts (runPerformRequest mode env).1 ∧
    spanStarts (runPerformRequest mode env).1 ≤ 1 := by
  rcases hp : env.pin with _ | pin
  · rw [run_disabled mode env (Or.inl hp)]
    simp [spanStarts, spanFinishes, isStartEvent, isFinishEvent]
  · cases hen : pin.enabled with
    | false =>
        rw [run_disabled mode env (Or.inr ⟨pin, hp, hen⟩)]
        simp [spanStarts, spanFinishes, isStartEvent, isFinishEvent]
    | true =>
        cases hsc : shortCircuit env with
        | true =>
            rw [run_shortCircuit mode env pin hp hen hsc]
            simp [spanStarts, spanFinishes, List.countP_append,
              (counts_spanSetup pin).1, (counts_spanSetup pin).2.1,
              isStartEvent, isFinishEvent, callEvent]
        | false =>
            obtain ⟨suffix, htr, hs0, hf1, _, _, _, _, _, _⟩ :=
              run_full mode env pin hp hen hsc
            rw [htr]
            simp [spanStarts, spanFinishes, List.countP_append,
              (counts_spanSetup pin).1, (counts_spanSetup pin).2.1,
              (counts_requestTags env).1, (counts_requestTags env).2.1,
              isStartEvent, isFinishEvent, hs0, hf1]

/-- Claim C7: when the instance has no pin, or a disabled one, the
interceptor creates no span and performs no tag work — the trace is exactly
one invocation of the underlying call with the original arguments — and the
caller receives the unwrapped outcome unchanged, in both calling
conventions. -/
theorem C7_disabled_tracing (mode : Mode) (env : Env)
    (h : env.pin = none ∨ ∃ pin, env.pin = some pin ∧ pin.enabled = false) :
    runPerformRequest mode env =
      ([Event.callFunc env.args env.kwargs], env.funcOutcome) :=
  run_disabled mode env h

/-- Witness for C7 at a concrete pin-less call. -/
theorem C7_disabled_tracing_witness :
    runPerformRequest Mode.sync envC7 =
      ([Event.callFunc envC7.args envC7.kwargs], envC7.funcOutcome) :=
  C7_disabled_tracing Mode.sync envC7 (Or.inl rfl)

/-- Claim C2, evaluated at the failing input: for the same fully-instrumented
call whose underlying call raises a transport error with attached status code
404, the asynchronous driver re-raises the very same error object and a span
is opened, but — because the exception surfaces at the driver's `await` and
the generator's `except transport.TransportError` clause is never resumed —
the span receives neither a status-code tag nor the error flag; the
synchronous driver on the identical input does set both. -/
theorem C2_async_error_untagged :
    (runPerformRequest Mode.async envC2).2 =
      Except.error { isTransportError := true, status_code := some 404, errId := 7 } ∧
    spanStarts (runPerformRequest Mode.async envC2).1 = 1 ∧
    (runPerformRequest Mode.async envC2).1.any isErrorFlagEvent = false ∧
    (runPerformRequest Mode.async envC2).1.any isStatusCodeEvent = false ∧
    (runPerformRequest Mode.sync envC2).2 =
      Except.error { isTransportError := true, status_code := some 404, errId := 7 } ∧
    (runPerformRequest Mode.sync envC2).1.any isErrorFlagEvent = true ∧
    (runPerformRequest Mode.sync envC2).1.any isStatusCodeEvent = true := by
  refine ⟨rfl, ?_, ?_, ?_, rfl, ?_, ?_⟩ <;> decide

/-- Claim C4: in every fully-instrumented call (pin present and enabled, no
sampling short-circuit), when the method is GET or POST the body tag is set
exactly once and equals the serialized body when its length is within the
cap, and otherwise equals the placeholder string, which contains both the
length and the cap; for any other method the body tag is never set. -/
theorem C4_body_size_policy (mode : Mode) (env : Env) (pin : Pin)
    (hpin : env.pin = some pin) (hen : pin.enabled = true)
    (hsc : shortCircuit env = false) :
    ((env.args.method = "GET" ∨ env.args.method = "POST") →
      tagValues META_BODY (runPerformRequest mode env).1 =
        [if env.serBody.length ≤ env.maxLen then env.serBody
          else bodyPlaceholder env.serBody.length env.maxLen] ∧
      (∃ a b c, bodyPlaceholder env.serBody.length env.maxLen =
        a ++ toString env.serBody.length ++ b ++ toString env.maxLen ++ c)) ∧
    (¬(env.args.method = "GET" ∨ env.args.method = "POST") →
      tagValues META_BODY (runPerformRequest mode env).1 = []) := by
  obtain ⟨suffix, htr, _, _, _, _, _, htv, _, _⟩ :=
    run_full mode env pin hpin hen hsc
  have hqc : tagValues META_BODY
      (Event.quantizeSpan :: Event.callFunc env.args env.kwargs :: suffix) =
      tagValues META_BODY suffix := by
    simp [tagValues]
  have hbody : tagValues META_BODY (runPerformRequest mode env).1 =
      tagValues META_BODY (bodyEvents env) := by
    rw [htr, tagValues_append, tagValues_append,
      tagValues_spanSetup META_BODY pin (by decide) (by decide),
      tagValues_requestTags_body env, hqc, htv META_BODY]
    simp
  constructor
  · intro hm
    refine ⟨?_, "<body size ", " exceeds limit of ", ">", rfl⟩
    rw [hbody, tagValues_bodyEvents env, if_pos hm]
  · intro hm
    rw [hbody, tagValues_bodyEvents env, if_neg hm]

/-- Witness for C4 at a concrete GET call with a 4-character serialized body
and the 25000-character cap. -/
theorem C4_body_size_policy_witness :
    tagValues META_BODY (runPerformRequest Mode.sync envC9).1 = ["null"] := by
  have h :=
    (C4_body_size_policy Mode.sync envC9 enabledPin rfl rfl rfl).1 (Or.inl rfl)
  rw [h.1]
  decide

/-- Claim C5 counterexample: at a concrete enabled-tracing call whose context
carries the explicitly assigned sampling priority 0, the code skips tag
derivation (a span is opened but the method tag is never set) even though no
NEGATIVE sampling priority has been assigned — refuting "skipped if and only
if a negative sampling priority has been explicitly assigned". -/
theorem C5_counterexample :
    tagDerivationSkipped (runPerformRequest Mode.sync envC5).1 = true ∧
    ¬∃ p : Int, envC5.samplingPriority = some p ∧ p < 0 := by
  constructor
  · decide
  · rintro ⟨p, hp, hneg⟩
    have hp2 : (some 0 : Option Int) = some p := hp
    injection hp2 with h
    omega

/-- Claim C5 as amended: with tracing enabled, tag derivation is skipped if
and only if a NON-POSITIVE (zero or negative) sampling priority has been
explicitly assigned; when the short-circuit triggers, the span is still
opened and closed exactly once, the underlying call is still performed
exactly once with unchanged arguments, and its outcome is delivered
unchanged. -/
theorem C5_sampling_short_circuit (mode : Mode) (env : Env) (pin : Pin)
    (hpin : env.pin = some pin) (hen : pin.enabled = true) :
    (tagDerivationSkipped (runPerformRequest mode env).1 = true ↔
      ∃ p : Int, env.samplingPriority = some p ∧ p ≤ 0) ∧
    (shortCircuit env = true →
      (runPerformRequest mode env).2 = env.funcOutcome ∧
      callEvents (runPerformRequest mode env).1 =
        [Event.callFunc env.args env.kwargs] ∧
      spanStarts (runPerformRequest mode env).1 = 1 ∧
      spanFinishes (runPerformRequest mode env).1 = 1) := by
  rw [← shortCircuit_iff]
  cases hsc : shortCircuit env with
  | true =>
      rw [run_shortCircuit mode env pin hpin hen hsc]
      refine ⟨?_, fun _ => ⟨rfl, ?_, ?_, ?_⟩⟩
      · simp only [iff_true]
        unfold tagDerivationSkipped
        have h1 : (spanSetupEvents pin ++ [callEvent env, Event.finishSpan]).any
            isStartEvent = true := by
          have : (spanSetupEvents pin).any isStartEvent = true := by
            simp [spanSetupEvents, isStartEvent]
          simp [List.any_append, this]
        have h2 : (spanSetupEvents pin ++ [callEvent env, Event.finishSpan]).any
            isMethodTagEvent = false := by
          have hc := (counts_spanSetup pin).2.2.2
          simp [List.any_append, hc, callEvent, isMethodTagEvent]
        rw [h1, h2]
        rfl
      · simp [callEvents, List.filter_append, filter_call_spanSetup,
          callEvent, isCallEvent]
      · simp [spanStarts, List.countP_append, (counts_spanSetup pin).1,
          isStartEvent, callEvent]
      · simp [spanFinishes, List.countP_append, (counts_spanSetup pin).2.1,
          isFinishEvent, callEvent]
  | false =>
      obtain ⟨suffix, htr, _, _, _, hm, _, _, _, _⟩ :=
        run_full mode env pin hpin hen hsc
      refine ⟨?_, by simp⟩
      rw [htr]
      simp only [Bool.false_eq_true, iff_false]
      unfold tagDerivationSkipped
      have h2 : (spanSetupEvents pin ++ requestTagEvents env ++
          Event.quantizeSpan :: Event.callFunc env.args env.kwargs :: suffix).any
          isMethodTagEvent = true := by
        simp [List.any_append, (counts_requestTags env).2.2.2]
      rw [h2]
      simp

/-- Witness for the amended C5 at a concrete call with sampling priority 0:
the short-circuit fires and the span is still opened once. -/
theorem C5_sampling_short_circuit_witness :
    tagDerivationSkipped (runPerformRequest Mode.sync envC5).1 = true ∧
    spanStarts (runPerformRequest Mode.sync envC5).1 = 1 := by
  have h := C5_sampling_short_circuit Mode.sync envC5 enabledPin rfl rfl
  exact ⟨h.1.mpr ⟨0, rfl, by omega⟩, (h.2 rfl).2.2.1⟩

/-- Claim C8: in every fully-instrumented call, the url tag equals the path
component parsed from the target URL, and the params tag equals the
URL-encoding of the `params` keyword argument whenever that argument carries
at least one query parameter, and equals the query string parsed from the
target URL otherwise (the argument absent or the empty dict, which is falsy
in the source's `if params:`). -/
theorem C8_params_precedence (mode : Mode) (env : Env) (pin : Pin)
    (hpin : env.pin = some pin) (hen : pin.enabled = true)
    (hsc : shortCircuit env = false) :
    tagValues META_URL (runPerformRequest mode env).1 = [env.parsedPath] ∧
    (∀ p ps, env.kwargs.params = some (p :: ps) →
      tagValues META_PARAMS (runPerformRequest mode env).1 =
        [env.urlencode (p :: ps)]) ∧
    ((env.kwargs.params = none ∨ env.kwargs.params = some []) →
      tagValues META_PARAMS (runPerformRequest mode env).1 =
        [env.parsedQuery]) := by
  obtain ⟨suffix, htr, _, _, _, _, _, htv, _, _⟩ :=
    run_full mode env pin hpin hen hsc
  have hparams : tagValues META_PARAMS (runPerformRequest mode env).1 =
      [encodedParams env] := by
    have hqc : tagValues META_PARAMS
        (Event.quantizeSpan :: Event.callFunc env.args env.kwargs :: suffix) =
        tagValues META_PARAMS suffix := by
      simp [tagValues]
    rw [htr, tagValues_append, tagValues_append,
      tagValues_spanSetup META_PARAMS pin (by decide) (by decide),
      tagValues_requestTags_params env, hqc, htv META_PARAMS]
    simp
  refine ⟨?_, ?_, ?_⟩
  · have hqc : tagValues META_URL
        (Event.quantizeSpan :: Event.callFunc env.args env.kwargs :: suffix) =
        tagValues META_URL suffix := by
      simp [tagValues]
    rw [htr, tagValues_append, tagValues_append,
      tagValues_spanSetup META_URL pin (by decide) (by decide),
      tagValues_requestTags_url env, hqc, htv META_URL]
    simp
  · intro p ps hps
    rw [hparams]
    simp [encodedParams, hps]
  · intro hp
    rw [hparams]
    rcases hp with hp | hp <;> simp [encodedParams, hp]

/-- Witness for C8 at a concrete call supplying `params` in the arguments
while the target URL also embeds a query string: the argument wins. -/
theorem C8_params_precedence_witness :
    tagValues META_URL (runPerformRequest Mode.sync envC8).1 =
      ["/my-index/_search"] ∧
    tagValues META_PARAMS (runPerformRequest Mode.sync envC8).1 = ["q=foo"] := by
  have h := C8_params_precedence Mode.sync envC8 enabledPin rfl rfl rfl
  exact ⟨h.1, h.2.1 ("q", "foo") [] rfl⟩

/-- Claim C9 counterexample: at a concrete fully-instrumented successful
call, the trace contains both a quantizer application and the delegation of
the underlying call, yet the quantizer is never applied after the delegation
— refuting "the Metadata Quantizer is applied ... after the underlying call
has been delegated and its outcome tags have been derived, and immediately
before the span closes" (in the source, `span = quantize(span)` at line 203
precedes `result = yield func(*args, **kwargs)` at line 206). -/
theorem C9_counterexample :
    (runPerformRequest Mode.sync envC9).1.any isQuantizeEvent = true ∧
    (runPerformRequest Mode.sync envC9).1.any isCallEvent = true ∧
    existsAfter isCallEvent isQuantizeEvent
      (runPerformRequest Mode.sync envC9).1 = false := by
  decide

/-- Claim C9 as amended: in every fully-instrumented call the quantizer is
applied exactly once, after all request-tag derivation and immediately
BEFORE the underlying call is delegated (hence before the outcome tags are
derived), and the span closes afterwards.  The trace decomposes exactly as
the span-opening events, then the request-tag derivation events (which
contain the method tag), then the single quantize event, then the delegate,
then a suffix that contains the close and no further quantize. -/
theorem C9_quantize_position (mode : Mode) (env : Env) (pin : Pin)
    (hpin : env.pin = some pin) (hen : pin.enabled = true)
    (hsc : shortCircuit env = false) :
    ∃ post, (runPerformRequest mode env).1 =
        spanSetupEvents pin ++ requestTagEvents env ++
          Event.quantizeSpan ::
            Event.callFunc env.args env.kwargs :: post ∧
      (requestTagEvents env).any isMethodTagEvent = true ∧
      (spanSetupEvents pin ++ requestTagEvents env).any isQuantizeEvent = false ∧
      post.any isQuantizeEvent = false ∧
      post.any isFinishEvent = true := by
  obtain ⟨suffix, htr, _, _, hq, _, hf, _, _, _⟩ :=
    run_full mode env pin hpin hen hsc
  refine ⟨suffix, htr, (counts_requestTags env).2.2.2, ?_, hq, hf⟩
  simp [List.any_append, (counts_spanSetup pin).2.2.1,
    (counts_requestTags env).2.2.1]

/-- Witness for the amended C9 at a concrete fully-instrumented call. -/
theorem C9_quantize_position_witness :
    ∃ post, (runPerformRequest Mode.sync envC9).1 =
        spanSetupEvents enabledPin ++ requestTagEvents envC9 ++
          Event.quantizeSpan ::
            Event.callFunc envC9.args envC9.kwargs :: post ∧
      (requestTagEvents envC9).any isMethodTagEvent = true ∧
      (spanSetupEvents enabledPin ++ requestTagEvents envC9).any
        isQuantizeEvent = false ∧
      post.any isQuantizeEvent = false ∧
      post.any isFinishEvent = true :=
  C9_quantize_position Mode.sync envC9 enabledPin rfl rfl rfl

/-- Claim C6: applying `_patch` twice leaves the same state as applying it
once; starting from an unwrapped class, one apply installs at most one
wrapper layer on each present transport class; `_unpatch` with the patch
flag unset is a no-op; and both operations are total over every combination
of present/absent `Transport` and `AsyncTransport` classes. -/
theorem C6_patch_idempotent (t : TransportState) :
    patchTransport (patchTransport t) = patchTransport t ∧
    (t.datadogPatch = false → t.syncWrapped = 0 → t.asyncWrapped = 0 →
      (patchTransport (patchTransport t)).syncWrapped =
        (if t.hasTransport then 1 else 0) ∧
      (patchTransport (patchTransport t)).asyncWrapped =
        (if t.hasAsyncTransport then 1 else 0)) ∧
    (t.datadogPatch = false → unpatchTransport t = t) := by
  obtain ⟨f, ht, hat, sw, aw⟩ := t
  cases f <;> cases ht <;> cases hat <;>
    simp [patchTransport, unpatchTransport] <;> omega

/-- Witness for C6 at a concrete unpatched module exposing both classes. -/
theorem C6_patch_idempotent_witness :
    patchTransport (patchTransport tC6) = patchTransport tC6 ∧
    (patchTransport (patchTransport tC6)).syncWrapped = 1 ∧
    (patchTransport (patchTransport tC6)).asyncWrapped = 1 ∧
    unpatchTransport tC6 = tC6 := by
  have h := C6_patch_idempotent tC6
  refine ⟨h.1, ?_, ?_, h.2.2 rfl⟩
  · simpa [tC6] using (h.2.1 rfl rfl rfl).1
  · simpa [tC6] using (h.2.1 rfl rfl rfl).2

/-- Claim C10: construction of `CISourceFileInfoBase` succeeds exactly on
inputs whose path is a `Path` object (absolute or relative — a relative path
is converted, not rejected), whose provided line numbers are integers at
least 1, where `end_line` set implies `start_line` set, and where
`start_line <= end_line` when both are set; and every successfully
constructed value has an absolute path and satisfies those line-number
invariants. -/
theorem C10_source_file_info (p : PathArg) (s e : LineArg) :
    constructionSucceeds p s e = validSourceArgs p s e ∧
    (∀ info, mkCISourceFileInfo p s e = Except.ok info →
      info.pathIsAbs = true ∧
      (∀ n, info.start_line = some n → 1 ≤ n) ∧
      (∀ n, info.end_line = some n → 1 ≤ n) ∧
      (info.end_line.isSome → info.start_line.isSome) ∧
      (∀ a b, info.start_line = some a → info.end_line = some b → a ≤ b)) := by
  cases p with
  | notPath r =>
      simp [constructionSucceeds, mkCISourceFileInfo, validSourceArgs]
  | path isAbs r =>
      cases s with
      | notInt ra =>
          cases e <;>
            simp [constructionSucceeds, mkCISourceFileInfo, checkLineNumber,
              validSourceArgs, lineOk, lineSet]
      | noneVal =>
          cases e with
          | noneVal =>
              refine ⟨rfl, ?_⟩
              intro info h
              injection h with h
              subst h
              exact ⟨rfl, by simp, by simp, by simp, by simp⟩
          | notInt rb =>
              simp [constructionSucceeds, mkCISourceFileInfo, checkLineNumber,
                validSourceArgs, lineOk, lineSet]
          | intVal b =>
              by_cases hb : b < 1
              · have hd : decide (1 ≤ b) = false := decide_eq_false (by omega)
                simp [constructionSucceeds, mkCISourceFileInfo, checkLineNumber,
                  validSourceArgs, lineOk, lineSet, hb, hd]
              · have hd : decide (1 ≤ b) = true := decide_eq_true (by omega)
                simp [constructionSucceeds, mkCISourceFileInfo, checkLineNumber,
                  validSourceArgs, lineOk, lineSet, hb, hd]
      | intVal a =>
          by_cases ha : a < 1
          · have hda : decide (1 ≤ a) = false := decide_eq_false (by omega)
            cases e <;>
              simp [constructionSucceeds, mkCISourceFileInfo, checkLineNumber,
                validSourceArgs, lineOk, lineSet, ha, hda]
          · have hda : decide (1 ≤ a) = true := decide_eq_true (by omega)
            cases e with
            | noneVal =>
                refine ⟨?_, ?_⟩
                · simp [constructionSucceeds, mkCISourceFileInfo,
                    checkLineNumber, validSourceArgs, lineOk, lineSet, ha, hda]
                · simp only [mkCISourceFileInfo, checkLineNumber, if_neg ha]
                  intro info h
                  injection h with h
                  subst h
                  refine ⟨rfl, ?_, by simp, by simp, by simp⟩
                  intro n hn
                  injection hn with hn
                  omega
            | notInt rb =>
                simp [constructionSucceeds, mkCISourceFileInfo, checkLineNumber,
                  validSourceArgs, lineOk, lineSet, ha, hda]
            | intVal b =>
                by_cases hb : b < 1
                · have hdb : decide (1 ≤ b) = false := decide_eq_false (by omega)
                  simp [constructionSucceeds, mkCISourceFileInfo,
                    checkLineNumber, validSourceArgs, lineOk, lineSet,
                    ha, hb, hdb]
                · have hdb : decide (1 ≤ b) = true := decide_eq_true (by omega)
                  by_cases hab : a > b
                  · have hdab : decide (a ≤ b) = false :=
                      decide_eq_false (by omega)
                    simp [constructionSucceeds, mkCISourceFileInfo,
                      checkLineNumber, validSourceArgs, lineOk, lineSet,
                      ha, hb, hab, hdb, hdab]
                  · have hdab : decide (a ≤ b) = true :=
                      decide_eq_true (by omega)
                    refine ⟨?_, ?_⟩
                    · simp [constructionSucceeds, mkCISourceFileInfo,
                        checkLineNumber, validSourceArgs, lineOk, lineSet,
                        ha, hb, hab, hda, hdb, hdab]
                    · simp only [mkCISourceFileInfo, checkLineNumber,
                        if_neg ha, if_neg hb, if_neg hab]
                      intro info h
                      injection h with h
                      subst h
                      refine ⟨rfl, ?_, ?_, by simp, ?_⟩
                      · intro n hn
                        injection hn with hn
                        omega
                      · intro n hn
                        injection hn with hn
                        omega
                      · intro x y hx hy
                        injection hx with hx
                        injection hy with hy
                        omega

/-- Witness for C10 at a concrete relative path with both line numbers set:
construction succeeds and yields an absolute path. -/
theorem C10_source_file_info_witness :
    constructionSucceeds (PathArg.path false 3)
        (LineArg.intVal 2) (LineArg.intVal 9) =
      validSourceArgs (PathArg.path false 3)
        (LineArg.intVal 2) (LineArg.intVal 9) ∧
    CISourceFileInfo.pathIsAbs
        { pathIsAbs := true, pathRep := 3,
          start_line := some 2, end_line := some 9 } = true := by
  have h := C10_source_file_info (PathArg.path false 3)
    (LineArg.intVal 2) (LineArg.intVal 9)
  exact ⟨h.1, (h.2 _ rfl).1⟩

end DDTrace
